import Mathlib

/-!
Verification of the Holoscan SDK core-bridge specification against the
source, as a shallow embedding in Lean 4.

The embedded code:
* `AsynchronousCondition::event_state` setter/getter
  (asynchronous condition source, included with
  `src/include/holoscan/operators/multiai_postprocessor/multiai_postprocessor.hpp`);
* `PyEntity::py_get` / `PyEntity::py_add`, the `load_extensions` binding,
  the `receive`/`emit` lambda bindings, and the `default_tid` constant
  (`src/python/pybind11/gxf/gxf.cpp`).

External-engine pieces (the `nvidia::gxf` scheduling term, entity storage,
`GxfLoadExtensions`, and the registrar bodies) are not under `src/`; where a
claim needs them they are modelled from the spec, and those definitions say
so in their doc comments.
-/

namespace Holoscan

/-- Modelled from the spec: the asynchronous event state is a tri-state
`{EVENT_WAITING, EVENT_DONE, EVENT_NEVER}` (spec §3); the C++ enum itself is
declared outside the provided sources. -/
inductive AsynchronousEventState where
  | EVENT_WAITING
  | EVENT_DONE
  | EVENT_NEVER
deriving DecidableEq, Repr

/-- Modelled from the spec: `nvidia::gxf::AsynchronousSchedulingTerm` is
external-engine code holding the event state the scheduler observes
(spec §4.4); `setEventState` stores the state, `getEventState` reads it. -/
structure AsynchronousSchedulingTerm where
  state : AsynchronousEventState
deriving DecidableEq, Repr

/-- The external `AsynchronousSchedulingTerm::setEventState` (modelled from the spec). -/
def AsynchronousSchedulingTerm.setEventState (_t : AsynchronousSchedulingTerm)
    (s : AsynchronousEventState) : AsynchronousSchedulingTerm :=
  ⟨s⟩

/-- The external `AsynchronousSchedulingTerm::getEventState` (modelled from the spec). -/
def AsynchronousSchedulingTerm.getEventState (t : AsynchronousSchedulingTerm) :
    AsynchronousEventState :=
  t.state

/-- The `holoscan::AsynchronousCondition` class: the fields the `event_state`
setter/getter touch.  `gxf_cptr_` is the possibly-null pointer to the
underlying scheduling term (`none` models the null/unbound handle);
`event_state_` is the locally-held state field. -/
structure AsynchronousCondition where
  gxf_cptr_ : Option AsynchronousSchedulingTerm
  event_state_ : AsynchronousEventState
deriving DecidableEq, Repr

/-- Source `AsynchronousCondition::event_state(AsynchronousEventState state)`
(the setter): if `gxf_cptr_` is non-null the state is forwarded to the
scheduling term via `setEventState`; in every case `event_state_ = state`
is then stored locally.  The C++ body contains no throw. -/
def AsynchronousCondition.set_event_state (c : AsynchronousCondition)
    (state : AsynchronousEventState) : AsynchronousCondition :=
  match c.gxf_cptr_ with
  | some term => { gxf_cptr_ := some (term.setEventState state), event_state_ := state }
  | none => { c with event_state_ := state }

/-- Source `AsynchronousCondition::event_state() const` (the getter): if
`gxf_cptr_` is non-null the state is read from the scheduling term via
`getEventState`, otherwise the locally-held `event_state_` is returned.
The C++ body contains no throw. -/
def AsynchronousCondition.get_event_state (c : AsynchronousCondition) :
    AsynchronousEventState :=
  match c.gxf_cptr_ with
  | some term => term.getEventState
  | none => c.event_state_

/-- The transition relation the spec claims for the event state:
`EVENT_WAITING → EVENT_DONE`, `EVENT_DONE → EVENT_WAITING`,
any state `→ EVENT_NEVER` (staying put is no change at all). -/
def claimedTransitionOk (a b : AsynchronousEventState) : Bool :=
  (a == AsynchronousEventState.EVENT_WAITING && b == AsynchronousEventState.EVENT_DONE) ||
  (a == AsynchronousEventState.EVENT_DONE && b == AsynchronousEventState.EVENT_WAITING) ||
  b == AsynchronousEventState.EVENT_NEVER ||
  a == b

/-- Helper: the setter followed by the getter always yields the state just
written, bound or unbound. -/
theorem set_then_get (c : AsynchronousCondition) (s : AsynchronousEventState) :
    (c.set_event_state s).get_event_state = s := by
  cases h : c.gxf_cptr_ <;>
    simp [AsynchronousCondition.set_event_state, AsynchronousCondition.get_event_state, h,
      AsynchronousSchedulingTerm.setEventState, AsynchronousSchedulingTerm.getEventState]

/-- Helper: the setter never binds a term that was not bound before. -/
theorem set_preserves_unbound (c : AsynchronousCondition) (s : AsynchronousEventState)
    (h : c.gxf_cptr_ = none) : (c.set_event_state s).gxf_cptr_ = none := by
  simp [AsynchronousCondition.set_event_state, h]

/-- Helper: the setter applies the requested state to the local field
unconditionally. -/
theorem set_writes_local (c : AsynchronousCondition) (s : AsynchronousEventState) :
    (c.set_event_state s).event_state_ = s := by
  cases h : c.gxf_cptr_ <;> simp [AsynchronousCondition.set_event_state, h]

theorem foldl_set_last (c : AsynchronousCondition) (ws : List AsynchronousEventState)
    (s : AsynchronousEventState) :
    ((ws ++ [s]).foldl AsynchronousCondition.set_event_state c).get_event_state = s := by
  induction ws generalizing c with
  | nil => simpa using set_then_get c s
  | cons w ws ih => simpa using ih (c.set_event_state w)

/-!  ## Entity / tensor interchange at the Python interface  -/

/-- The tensor interchange unit as far as `py_get`/`py_add` handle it: an
opaque typed object; the bindings move it without inspecting its contents,
so a bare identifier suffices for the embedding. -/
structure Tensor where
  id : Nat
deriving DecidableEq, Repr

/-- A Python object as seen by `PyEntity::py_add`: either a `PyTensor`
(`py::isinstance<PyTensor>(value)` true) or any other object. -/
inductive PyObject where
  | tensor (t : Tensor)
  | other (repr_ : String)
deriving DecidableEq, Repr

/-- Modelled from the spec: the `nvidia::gxf::Entity` storage behind
`holoscan::gxf::Entity` is external-engine code; the spec describes it as a
name-keyed set of typed sub-objects where re-insertion under an existing
name overwrites ("last writer wins", spec §4.2).  At the Python interface
only tensors flow through it, so it is a name-to-tensor association list
with the most recent insertion found first. -/
abbrev Entity : Type := List (String × Tensor)

/-- Entity insertion, `add<Tensor>(tensor, name)` (modelled from the spec): inserts
the tensor under `name`; a later insertion under the same name shadows the
earlier one. -/
def Entity.add (e : Entity) (name : String) (t : Tensor) : Entity :=
  (name, t) :: e

/-- Entity lookup, `get<Tensor>(name)` (modelled from the spec): returns the most
recently inserted tensor bound to `name`, or an empty result when the name
is unbound.  Total: a missing name yields `none`, never an error. -/
def Entity.get : Entity → String → Option Tensor
  | [], _ => none
  | (n, t) :: rest, name => if n = name then some t else Entity.get rest name

/-- Source `PyEntity::py_get(name)`: calls `get<Tensor>(name)`; when the lookup
fails it returns `py::none()` (here `none`), otherwise the tensor (cast to
Python with its array/dlpack interface attributes set, which does not alter
the object).  The body contains no throw and the lookup returns an
`Expected`, so a missing name is a normal empty result. -/
def PyEntity.py_get (e : Entity) (name : String) : Option Tensor :=
  Entity.get e name

/-- Source `PyEntity::py_add(value, name)`: when `value` is a `PyTensor` it is
inserted via `add<Tensor>(tensor, name)` and `value` itself is returned;
any other object is not inserted and `py::none()` is returned.  The result
is the updated entity paired with the Python return value. -/
def PyEntity.py_add (e : Entity) (value : PyObject) (name : String) :
    Entity × Option PyObject :=
  match value with
  | .tensor t => (e.add name t, some value)
  | .other _ => (e, none)

/-- A name is bound in an entity when some insertion used it. -/
def Entity.bound (e : Entity) (name : String) : Prop :=
  ∃ p ∈ e, p.1 = name

instance (e : Entity) (name : String) : Decidable (e.bound name) :=
  inferInstanceAs (Decidable (∃ p ∈ e, p.1 = name))

theorem get_none_of_unbound (e : Entity) (name : String) (h : ¬ e.bound name) :
    Entity.get e name = none := by
  induction e with
  | nil => rfl
  | cons p rest ih =>
    obtain ⟨n, t⟩ := p
    have hne : n ≠ name := by
      intro hn
      exact h ⟨(n, t), List.mem_cons_self _ _, hn⟩
    have hrest : ¬ Entity.bound rest name := by
      intro ⟨q, hq, hqn⟩
      exact h ⟨q, List.mem_cons_of_mem _ hq, hqn⟩
    simp [Entity.get, hne, ih hrest]

/-!  ## I/O contexts at the Python interface  -/

/-- The `GXFInputContext` as exposed to Python.  The binding state the spec
talks about — the per-port queues of entities delivered for this cycle —
is modelled from the spec (§4.3: "the next queued Entity/Tensor for that
input port"); the binding itself ignores it. -/
structure GXFInputContext where
  queues : List (String × List Entity)
deriving DecidableEq, Repr

/-- The entities queued on the named input port this cycle. -/
def GXFInputContext.queuedAt (ctx : GXFInputContext) (name : String) : List Entity :=
  (ctx.queues.lookup name).getD []

/-- The `receive` lambda bound on `GXFInputContext` in `gxf.cpp`:
`[](const InputContext&, const std::string&) { return py::none(); }` —
it ignores both the context and the port name and returns `py::none()`. -/
def GXFInputContext.py_receive (_ctx : GXFInputContext) (_name : String) :
    Option Entity :=
  none

/-- The `GXFOutputContext` as exposed to Python, with the downstream-observable
per-port emitted values modelled from the spec (§4.3: `emit` "hands a value
to the named output port for downstream delivery"). -/
structure GXFOutputContext where
  emitted : List (String × List PyObject)
deriving DecidableEq, Repr

/-- The values observable downstream on the named output port. -/
def GXFOutputContext.emittedAt (ctx : GXFOutputContext) (name : String) : List PyObject :=
  (ctx.emitted.lookup name).getD []

/-- The `emit` lambda bound on `GXFOutputContext` in `gxf.cpp`:
`[](const OutputContext&, py::object&, const std::string&) {}` — an empty
body: it changes no state and returns nothing. -/
def GXFOutputContext.py_emit (ctx : GXFOutputContext) (_data : PyObject)
    (_name : String) : GXFOutputContext :=
  ctx

/-!  ## Extension loading  -/

/-- Result type `gxf_result_t`: a C enum where `GXF_SUCCESS` is 0 (noted in
`gxf.cpp`). -/
abbrev gxf_result_t := Nat

/-- The `GxfLoadExtensionsInfo` struct as `load_extensions` fills it: the extension
filenames, the manifest filenames and the base directory (the C struct
stores the lists as pointer+count; the counts are the list lengths). -/
structure GxfLoadExtensionsInfo where
  extension_filenames : List String
  manifest_filenames : List String
  base_directory : String
deriving DecidableEq, Repr

/-- The `load_extensions` binding in `gxf.cpp`: builds a
`GxfLoadExtensionsInfo` from its arguments, calls the external engine's
`GxfLoadExtensions(context, &info)`, and on a non-`GXF_SUCCESS` result
throws `py::value_error(GxfResultStr(result))`; otherwise it returns
normally.  The external `GxfLoadExtensions` and `GxfResultStr` are passed
in as parameters. -/
def load_extensions (gxfLoadExtensions : Nat → GxfLoadExtensionsInfo → gxf_result_t)
    (gxfResultStr : gxf_result_t → String) (context : Nat)
    (extension_filenames manifest_filenames : List String)
    (base_directory : String) : Except String Unit :=
  let info : GxfLoadExtensionsInfo :=
    ⟨extension_filenames, manifest_filenames, base_directory⟩
  let result := gxfLoadExtensions context info
  if result ≠ 0 then Except.error (gxfResultStr result) else Except.ok ()

/-!  ## Extension / type registrar  -/

/-- Type identifier `gxf_tid_t`: a 128-bit value made of two 64-bit words. -/
structure gxf_tid_t where
  hash1 : Nat
  hash2 : Nat
deriving DecidableEq, Repr

/-- Source `static const gxf_tid_t default_tid` (all-zero) in `gxf.cpp`: the
reserved all-zero identifier, the default `tid` argument of
`add_component`/`add_type`/`reset` and the registrar constructor. -/
def default_tid : gxf_tid_t := ⟨0, 0⟩

/-- The `GXFExtensionRegistrar::TypeKind` enum. -/
inductive TypeKind where
  | kExtension
  | kComponent
deriving DecidableEq, Repr

/-- Modelled from the spec: the `GXFExtensionRegistrar` session state —
the body of the registrar lives outside the provided sources.  It records
the allocated (tid, kind) pairs and the registered (tid, description)
bindings (spec §3, §4.5); `next` drives fresh-id generation.  The session
invariant is that every allocated tid's first word is at most `next`. -/
structure GXFExtensionRegistrar where
  allocated : List (gxf_tid_t × TypeKind)
  factories : List (gxf_tid_t × String)
  next : Nat
deriving DecidableEq, Repr

/-- Modelled from the spec: `create_random_tid()` "yields a type id
guaranteed non-colliding within the registrar's session (reject the
reserved all-zero id)" (spec §4.5).  The fresh id is built from a counter
kept above every previously allocated word, so it is non-zero and
non-colliding. -/
def GXFExtensionRegistrar.create_random_tid (r : GXFExtensionRegistrar) :
    gxf_tid_t × GXFExtensionRegistrar :=
  (⟨r.next + 1, r.next + 1⟩, { r with next := r.next + 1 })

/-- Query `is_allocated(tid, kind)`: a pure query on the session's records
(modelled from the spec). -/
def GXFExtensionRegistrar.is_allocated (r : GXFExtensionRegistrar)
    (tid : gxf_tid_t) (kind : TypeKind) : Bool :=
  (tid, kind) ∈ r.allocated

/-- Modelled from the spec: the tid actually used by
`add_component`/`add_type` — "if `tid` is the reserved default, a fresh
one is generated" (spec §4.5), otherwise the caller-supplied tid is used
as given. -/
def GXFExtensionRegistrar.resolve_tid (r : GXFExtensionRegistrar)
    (tid : gxf_tid_t) : gxf_tid_t × GXFExtensionRegistrar :=
  if tid = default_tid then r.create_random_tid else (tid, r)

/-- Modelled from the spec: `add_component(description, tid)` binds a
wrapped-codelet type to the (description, tid) pair, generating a fresh
tid when the reserved default was passed, and records the allocation
(spec §4.5).  Returns the updated session and the tid used. -/
def GXFExtensionRegistrar.add_component (r : GXFExtensionRegistrar)
    (description : String) (tid : gxf_tid_t) :
    GXFExtensionRegistrar × gxf_tid_t :=
  let (t, r') := r.resolve_tid tid
  ({ r' with
      allocated := (t, TypeKind.kComponent) :: r'.allocated,
      factories := (t, description) :: r'.factories },
   t)

/-- Modelled from the spec: `add_type(description, tid)` binds a
wrapped-tensor-like type the same way `add_component` binds a codelet
type (spec §4.5). -/
def GXFExtensionRegistrar.add_type (r : GXFExtensionRegistrar)
    (description : String) (tid : gxf_tid_t) :
    GXFExtensionRegistrar × gxf_tid_t :=
  let (t, r') := r.resolve_tid tid
  ({ r' with
      allocated := (t, TypeKind.kComponent) :: r'.allocated,
      factories := (t, description) :: r'.factories },
   t)

/-- The registrar session invariant: every allocated tid's first word is
at most the fresh-id counter. -/
def GXFExtensionRegistrar.inv (r : GXFExtensionRegistrar) : Prop :=
  ∀ p ∈ r.allocated, p.1.hash1 ≤ r.next

instance (r : GXFExtensionRegistrar) : Decidable r.inv :=
  inferInstanceAs (Decidable (∀ p ∈ r.allocated, p.1.hash1 ≤ r.next))

/-- Helper: with the default (reserved) tid, `add_component` uses the
freshly generated counter-based tid. -/
theorem add_component_default_tid (r : GXFExtensionRegistrar) (desc : String) :
    (r.add_component desc default_tid).2 = ⟨r.next + 1, r.next + 1⟩ := by
  simp [GXFExtensionRegistrar.add_component, GXFExtensionRegistrar.resolve_tid,
    GXFExtensionRegistrar.create_random_tid]

/-- Helper: with the default (reserved) tid, `add_type` uses the freshly
generated counter-based tid. -/
theorem add_type_default_tid (r : GXFExtensionRegistrar) (desc : String) :
    (r.add_type desc default_tid).2 = ⟨r.next + 1, r.next + 1⟩ := by
  simp [GXFExtensionRegistrar.add_type, GXFExtensionRegistrar.resolve_tid,
    GXFExtensionRegistrar.create_random_tid]

/-- Helper: under the session invariant the counter-based fresh tid is not
yet allocated for any kind. -/
theorem fresh_tid_not_allocated (r : GXFExtensionRegistrar) (h : r.inv) (k : TypeKind) :
    r.is_allocated ⟨r.next + 1, r.next + 1⟩ k = false := by
  simp only [GXFExtensionRegistrar.is_allocated, decide_eq_false_iff_not]
  intro hmem
  have h2 : r.next + 1 ≤ r.next := h _ hmem
  omega

/-!  ## The claims  -/

/-- C1: for every `AsynchronousCondition` whose scheduling-term handle is
unbound (null), writing the event state stores it in the local
`event_state_` field, reading returns that locally-held value, and nothing
is forwarded to any scheduling term (the handle stays null); both
operations are total (no exception). -/
theorem C1_unbound_event_state_local (c : AsynchronousCondition)
    (s : AsynchronousEventState) (h : c.gxf_cptr_ = none) :
    (c.set_event_state s).event_state_ = s ∧
    (c.set_event_state s).get_event_state = s ∧
    (c.set_event_state s).gxf_cptr_ = none :=
  ⟨set_writes_local c s, set_then_get c s, set_preserves_unbound c s h⟩

/-- Witness for C1 at a concrete unbound condition. -/
theorem C1_witness :
    (AsynchronousCondition.mk none AsynchronousEventState.EVENT_WAITING).gxf_cptr_ = none ∧
    (((AsynchronousCondition.mk none AsynchronousEventState.EVENT_WAITING).set_event_state
        AsynchronousEventState.EVENT_DONE).event_state_ = AsynchronousEventState.EVENT_DONE ∧
      ((AsynchronousCondition.mk none AsynchronousEventState.EVENT_WAITING).set_event_state
        AsynchronousEventState.EVENT_DONE).get_event_state = AsynchronousEventState.EVENT_DONE ∧
      ((AsynchronousCondition.mk none AsynchronousEventState.EVENT_WAITING).set_event_state
        AsynchronousEventState.EVENT_DONE).gxf_cptr_ = none) :=
  ⟨rfl, C1_unbound_event_state_local
    (AsynchronousCondition.mk none AsynchronousEventState.EVENT_WAITING)
    AsynchronousEventState.EVENT_DONE rfl⟩

/-- C2: for every entity and every name not bound in it, `py_get` returns
an empty result (`none`); the function is total, so no exception is
raised. -/
theorem C2_get_unbound_none (e : Entity) (name : String) (h : ¬ e.bound name) :
    PyEntity.py_get e name = none :=
  get_none_of_unbound e name h

/-- Witness for C2 at a concrete entity and missing name. -/
theorem C2_witness :
    ¬ Entity.bound [("a", ⟨1⟩)] "b" ∧ PyEntity.py_get [("a", ⟨1⟩)] "b" = none :=
  ⟨by decide, C2_get_unbound_none [("a", ⟨1⟩)] "b" (by decide)⟩

/-- C3: `py_add` of a tensor followed immediately by `py_get` with the same
name returns the just-added tensor (and `py_add` returned the argument
itself); re-inserting under the same name overwrites, so a second add of
`t'` makes `py_get` return `t'` (last writer wins). -/
theorem C3_add_then_get (e : Entity) (name : String) (t t' : Tensor) :
    PyEntity.py_get (PyEntity.py_add e (PyObject.tensor t) name).1 name = some t ∧
    (PyEntity.py_add e (PyObject.tensor t) name).2 = some (PyObject.tensor t) ∧
    PyEntity.py_get
      (PyEntity.py_add (PyEntity.py_add e (PyObject.tensor t) name).1
        (PyObject.tensor t') name).1 name = some t' := by
  refine ⟨?_, rfl, ?_⟩ <;>
    simp [PyEntity.py_add, PyEntity.py_get, Entity.add, Entity.get]

/-- C4 counterexample: with an entity queued on port "in" this cycle, the
Python `receive` binding still returns an empty result — it does not return
the available entity, so the claim fails as stated at this input. -/
theorem C4_counterexample :
    GXFInputContext.queuedAt ⟨[("in", [[("t", ⟨0⟩)]])]⟩ "in" ≠ [] ∧
    GXFInputContext.py_receive ⟨[("in", [[("t", ⟨0⟩)]])]⟩ "in" = none := by
  decide

/-- C4 amended: `receive(port_name)` at the Python binding is a single
synchronous non-blocking call that always returns an empty result (`None`),
for every context and port name, whether or not input is queued. -/
theorem C4_receive_always_none (ctx : GXFInputContext) (name : String) :
    GXFInputContext.py_receive ctx name = none :=
  rfl

/-- C5 counterexample: emitting a tensor on port "out" leaves the output
context unchanged and the value is not observable on that port — the claim
that the emitted value becomes observable downstream fails at this input. -/
theorem C5_counterexample :
    GXFOutputContext.py_emit ⟨[]⟩ (PyObject.tensor ⟨0⟩) "out" = ⟨[]⟩ ∧
    PyObject.tensor ⟨0⟩ ∉
      GXFOutputContext.emittedAt
        (GXFOutputContext.py_emit ⟨[]⟩ (PyObject.tensor ⟨0⟩) "out") "out" := by
  decide

/-- C5 amended: `emit(value, port_name)` at the Python binding is a no-op:
for every output context, value and port name it returns the context
unchanged, so nothing becomes observable on the port. -/
theorem C5_emit_noop (ctx : GXFOutputContext) (v : PyObject) (name : String) :
    GXFOutputContext.py_emit ctx v name = ctx :=
  rfl

/-- C6: `load_extensions` succeeds exactly when the external engine reports
`GXF_SUCCESS` (0); on any other result it fails with the failure-reason
string the engine's `GxfResultStr` gives for that result. -/
theorem C6_load_extensions_result
    (gxfLoadExtensions : Nat → GxfLoadExtensionsInfo → gxf_result_t)
    (gxfResultStr : gxf_result_t → String) (context : Nat)
    (ext man : List String) (base : String) :
    (gxfLoadExtensions context ⟨ext, man, base⟩ = 0 →
      load_extensions gxfLoadExtensions gxfResultStr context ext man base =
        Except.ok ()) ∧
    (gxfLoadExtensions context ⟨ext, man, base⟩ ≠ 0 →
      load_extensions gxfLoadExtensions gxfResultStr context ext man base =
        Except.error (gxfResultStr (gxfLoadExtensions context ⟨ext, man, base⟩))) := by
  constructor <;> intro h <;> simp [load_extensions, h]

/-- Witness for C6: a concrete succeeding engine and a concrete failing
engine. -/
theorem C6_witness :
    ((fun _ _ => 0 : Nat → GxfLoadExtensionsInfo → gxf_result_t) 7
        ⟨["libext.so"], ["manifest.yaml"], "/opt"⟩ = 0 ∧
      load_extensions (fun _ _ => 0) (fun _ => "GXF_FAILURE") 7
        ["libext.so"] ["manifest.yaml"] "/opt" = Except.ok ()) ∧
    ((fun _ _ => 5 : Nat → GxfLoadExtensionsInfo → gxf_result_t) 7
        ⟨["libext.so"], ["manifest.yaml"], "/opt"⟩ ≠ 0 ∧
      load_extensions (fun _ _ => 5) (fun _ => "GXF_FAILURE") 7
        ["libext.so"] ["manifest.yaml"] "/opt" = Except.error "GXF_FAILURE") :=
  ⟨⟨rfl,
      (C6_load_extensions_result (fun _ _ => 0) (fun _ => "GXF_FAILURE") 7
        ["libext.so"] ["manifest.yaml"] "/opt").1 rfl⟩,
    ⟨by decide,
      (C6_load_extensions_result (fun _ _ => 5) (fun _ => "GXF_FAILURE") 7
        ["libext.so"] ["manifest.yaml"] "/opt").2 (by decide)⟩⟩

/-- C7: the reserved type identifier is the all-zero pair and means
"unassigned": under the session invariant, `add_component` and `add_type`
called with the reserved default tid use a freshly generated tid that is
non-zero (not the reserved value) and not previously allocated for either
kind. -/
theorem C7_default_tid_generates_fresh (r : GXFExtensionRegistrar)
    (desc : String) (h : r.inv) :
    default_tid = gxf_tid_t.mk 0 0 ∧
    ((r.add_component desc default_tid).2 ≠ default_tid ∧
      r.is_allocated (r.add_component desc default_tid).2 TypeKind.kExtension = false ∧
      r.is_allocated (r.add_component desc default_tid).2 TypeKind.kComponent = false) ∧
    ((r.add_type desc default_tid).2 ≠ default_tid ∧
      r.is_allocated (r.add_type desc default_tid).2 TypeKind.kExtension = false ∧
      r.is_allocated (r.add_type desc default_tid).2 TypeKind.kComponent = false) := by
  rw [add_component_default_tid, add_type_default_tid]
  refine ⟨rfl, ⟨?_, ?_, ?_⟩, ⟨?_, ?_, ?_⟩⟩ <;>
    first
      | exact fresh_tid_not_allocated r h _
      | simp [default_tid]

/-- Witness for C7 at a concrete fresh registrar session. -/
theorem C7_witness :
    GXFExtensionRegistrar.inv ⟨[], [], 0⟩ ∧
    (default_tid = gxf_tid_t.mk 0 0 ∧
      (((⟨[], [], 0⟩ : GXFExtensionRegistrar).add_component "d" default_tid).2 ≠ default_tid ∧
        GXFExtensionRegistrar.is_allocated (⟨[], [], 0⟩ : GXFExtensionRegistrar)
          ((⟨[], [], 0⟩ : GXFExtensionRegistrar).add_component "d" default_tid).2
          TypeKind.kExtension = false ∧
        GXFExtensionRegistrar.is_allocated (⟨[], [], 0⟩ : GXFExtensionRegistrar)
          ((⟨[], [], 0⟩ : GXFExtensionRegistrar).add_component "d" default_tid).2
          TypeKind.kComponent = false) ∧
      (((⟨[], [], 0⟩ : GXFExtensionRegistrar).add_type "d" default_tid).2 ≠ default_tid ∧
        GXFExtensionRegistrar.is_allocated (⟨[], [], 0⟩ : GXFExtensionRegistrar)
          ((⟨[], [], 0⟩ : GXFExtensionRegistrar).add_type "d" default_tid).2
          TypeKind.kExtension = false ∧
        GXFExtensionRegistrar.is_allocated (⟨[], [], 0⟩ : GXFExtensionRegistrar)
          ((⟨[], [], 0⟩ : GXFExtensionRegistrar).add_type "d" default_tid).2
          TypeKind.kComponent = false)) :=
  ⟨by decide, C7_default_tid_generates_fresh ⟨[], [], 0⟩ "d" (by decide)⟩

/-- C8 counterexample: starting from `EVENT_NEVER`, writing `EVENT_DONE` is
accepted and observed — the transition out of `EVENT_NEVER` is not among
the claimed transitions and is not rejected by the setter. -/
theorem C8_counterexample :
    claimedTransitionOk AsynchronousEventState.EVENT_NEVER
      AsynchronousEventState.EVENT_DONE = false ∧
    ((AsynchronousCondition.mk none AsynchronousEventState.EVENT_NEVER).set_event_state
      AsynchronousEventState.EVENT_DONE).get_event_state =
        AsynchronousEventState.EVENT_DONE := by
  decide

/-- C8 amended: the setter validates nothing — every write is applied
unconditionally, so after any sequence of `event_state` writes the observed
state is exactly the last state written; in particular transitions out of
`EVENT_NEVER` to `EVENT_DONE` or `EVENT_WAITING` are accepted, not
rejected. -/
theorem C8_writes_unconditional (c : AsynchronousCondition)
    (ws : List AsynchronousEventState) (s : AsynchronousEventState) :
    ((ws ++ [s]).foldl AsynchronousCondition.set_event_state c).get_event_state = s :=
  foldl_set_last c ws s

/-- C9: set-then-get is an identity round-trip for every condition, bound
or unbound: the setter (optionally forwarding to the term) always updates
the local field, and the getter returns the state just written. -/
theorem C9_set_get_roundtrip (c : AsynchronousCondition)
    (s : AsynchronousEventState) :
    (c.set_event_state s).get_event_state = s ∧
    (c.set_event_state s).event_state_ = s :=
  ⟨set_then_get c s, set_writes_local c s⟩

/-- C10: `py_add` only inserts tensors: a non-tensor argument causes no
insertion and returns `none`, while a tensor argument is inserted via
`add<Tensor>` and returned itself; `py_get` retrieves objects only as
tensors (its result type is an optional tensor). -/
theorem C10_py_add_tensor_only (e : Entity) (name : String) (o : String)
    (t : Tensor) :
    PyEntity.py_add e (PyObject.other o) name = (e, none) ∧
    PyEntity.py_add e (PyObject.tensor t) name =
      (e.add name t, some (PyObject.tensor t)) ∧
    PyEntity.py_get e name = Entity.get e name :=
  ⟨rfl, rfl, rfl⟩

end Holoscan
